import Mathlib

/-
Verification development for the face-gated vehicle-start controller.

The repository contains near-duplicate variants of the same program; the
claims cite three of them:
  * f6.py      -- the strict variant (second, shadowing definition of
                  capture_image_with_face at lines 162-285; compare_faces
                  at lines 288-331; authorize at 637-689; the ignition
                  worker start_vehicle_with_face at 371-423; the motor
                  loop step_motor_continuous at 339-353).
  * final2.py  -- the queue-based variant (capture_image_with_face at
                  111-176, compare_faces at 179-234, authorize at 523-548,
                  start_vehicle_with_face at 281-367, step_motor_continuous
                  at 244-259).
  * 2.py       -- the variant whose compare_faces gate is
                  distance < 0.7 and confidence > 50 (lines 298-310).

Camera frames, detected faces and measured quantities are modelled as data
carried by an abstract frame record; image decoding, the HOG detector and
the arctangent of the eye line are treated as oracles whose outputs are the
fields of that record.  Machine floats are modelled as rationals.
-/

/- ===================== Capture quality gate ===================== -/

/-- A detected face bounding box, in the (top, right, bottom, left) order
returned by face_recognition.face_locations. -/
structure FaceBox where
  top : Int
  right : Int
  bottom : Int
  left : Int
deriving DecidableEq

/-- One camera frame as seen by the f6.py capture loop.  readOk models
"ret and frame is not None" of camera.retrieve; brightness is the mean of
the gray image; faces is the detector output; eyeAngle is the eye-line
angle in degrees when face_landmarks finds landmarks (none when the
landmark list is empty); saveOk models the os.path.exists check after
cv2.imwrite. -/
structure Frame where
  readOk : Bool
  brightness : Rat
  width : Nat
  height : Nat
  faces : List FaceBox
  eyeAngle : Option Rat
  saveOk : Bool
deriving DecidableEq

/-- face_width = right - left (f6.py line 223). -/
def faceWidth (b : FaceBox) : Int := b.right - b.left

/-- face_height = bottom - top (f6.py line 224). -/
def faceHeight (b : FaceBox) : Int := b.bottom - b.top

/-- face_center_x = (left + right) // 2 (Python floor division). -/
def faceCenterX (b : FaceBox) : Int := (b.left + b.right).fdiv 2

/-- face_center_y = (top + bottom) // 2 (Python floor division). -/
def faceCenterY (b : FaceBox) : Int := (b.top + b.bottom).fdiv 2

/-- frame_center_x = frame.shape[1] // 2. -/
def frameCenterX (f : Frame) : Nat := f.width / 2

/-- frame_center_y = frame.shape[0] // 2. -/
def frameCenterY (f : Frame) : Nat := f.height / 2

/-- x_offset = abs(face_center_x - frame_center_x) / frame_center_x. -/
def xOffset (f : Frame) (b : FaceBox) : Rat :=
  |((faceCenterX b : Rat) - (frameCenterX f : Nat))| / (frameCenterX f : Nat)

/-- y_offset = abs(face_center_y - frame_center_y) / frame_center_y. -/
def yOffset (f : Frame) (b : FaceBox) : Rat :=
  |((faceCenterY b : Rat) - (frameCenterY f : Nat))| / (frameCenterY f : Nat)

/-- min_face_size = 150 (f6.py line 180). -/
def f6_minFaceSize : Int := 150

/-- min_brightness = 50 (f6.py line 181). -/
def f6_minBrightness : Rat := 50

/-- max_retries = 10 (f6.py line 178). -/
def f6_maxRetries : Nat := 10

/-- The rotation check of f6.py lines 252-270: when landmarks were found,
the frame is rejected if abs(eye_angle) > 15. -/
def f6_angleBad (f : Frame) : Bool :=
  match f.eyeAngle with
  | some a => decide (|a| > 15)
  | none => false

/-- How one loop iteration of f6.py capture_image_with_face classifies a
frame: readFail (retrieve failed, counts toward retry_count, line 196),
reject (any quality rejection: too dark, no face, too small, not centered,
multiple faces, rotated -- these loop WITHOUT touching retry_count,
lines 203-270), saveFail (imwrite verification failed, counts, line 282),
good (frame accepted and its path returned, line 279).  The guards appear
in exactly the source order. -/
inductive FrameOutcome where
  | readFail
  | reject
  | saveFail
  | good
deriving DecidableEq

def f6_frameOutcome (f : Frame) : FrameOutcome :=
  if f.readOk = false then FrameOutcome.readFail
  else if f.brightness < f6_minBrightness then FrameOutcome.reject
  else
    match f.faces with
    | [] => FrameOutcome.reject
    | b :: _ =>
      if faceWidth b < f6_minFaceSize ∨ faceHeight b < f6_minFaceSize then FrameOutcome.reject
      else if xOffset f b > 1/5 ∨ yOffset f b > 1/5 then FrameOutcome.reject
      else if 1 < f.faces.length then FrameOutcome.reject
      else if f6_angleBad f then FrameOutcome.reject
      else if f.saveOk then FrameOutcome.good
      else FrameOutcome.saveFail

/-- Result of running a capture loop against a finite schedule of frames
supplied by the camera: captured f (the function returned the saved path
of frame f), failed (the while condition retry_count < max_retries became
false and the function returned None), or stillLooping r (the schedule was
exhausted while the loop was still going to iterate again, with
retry_count = r at that point). -/
inductive CaptureResult (α : Type) where
  | captured (f : α)
  | failed
  | stillLooping (retryCount : Nat)
deriving DecidableEq

/-- The shared shape of both capture retry loops: the while condition is
checked at the top of every iteration; a readFail or saveFail outcome
increments the retry counter; a reject outcome loops without incrementing;
a good outcome returns the frame. -/
def captureLoopAux {α : Type} (maxRetries : Nat) (outcome : α → FrameOutcome) :
    Nat → List α → CaptureResult α
  | r, [] => if r < maxRetries then CaptureResult.stillLooping r else CaptureResult.failed
  | r, f :: rest =>
    if r < maxRetries then
      match outcome f with
      | FrameOutcome.readFail => captureLoopAux maxRetries outcome (r + 1) rest
      | FrameOutcome.reject => captureLoopAux maxRetries outcome r rest
      | FrameOutcome.saveFail => captureLoopAux maxRetries outcome (r + 1) rest
      | FrameOutcome.good => CaptureResult.captured f
    else CaptureResult.failed

/-- The retry loop of f6.py capture_image_with_face, lines 188-285. -/
def f6_captureLoop : Nat → List Frame → CaptureResult Frame :=
  captureLoopAux f6_maxRetries f6_frameOutcome

/-- Frames whose iteration increments retry_count in f6.py: frame-read
failures (line 196) and save-verification failures (line 282). -/
def f6_counted (f : Frame) : Bool :=
  f6_frameOutcome f == FrameOutcome.readFail || f6_frameOutcome f == FrameOutcome.saveFail

/-- One camera frame as seen by the final2.py capture loop.  readOk covers
both the camera-availability test and camera.read (both failure paths
increment retry_count, final2.py lines 117-138). -/
structure F2Frame where
  readOk : Bool
  brightness : Rat
  faces : List FaceBox
deriving DecidableEq

/-- mean_brightness threshold 30 (final2.py line 141). -/
def final2_minBrightness : Rat := 30

/-- max_retries = 5 (final2.py line 113). -/
def final2_maxRetries : Nat := 5

/-- Per-frame classification in final2.py capture_image_with_face: a read
failure counts toward retry_count; a too-dark frame (line 141) or a frame
with no detected face (line 162) loops without incrementing; any frame
with at least one face is written and returned at once (lines 152-161) --
there is no size, centering, multiplicity or angle check and no
save verification in this variant. -/
def final2_frameOutcome (f : F2Frame) : FrameOutcome :=
  if f.readOk = false then FrameOutcome.readFail
  else if f.brightness < final2_minBrightness then FrameOutcome.reject
  else
    match f.faces with
    | [] => FrameOutcome.reject
    | _ :: _ => FrameOutcome.good

/-- The retry loop of final2.py capture_image_with_face, lines 116-176. -/
def final2_captureLoop : Nat → List F2Frame → CaptureResult F2Frame :=
  captureLoopAux final2_maxRetries final2_frameOutcome

/-- The quality contract satisfied by every frame the f6 gate returns. -/
def f6_goodQuality (f : Frame) : Prop :=
  f6_minBrightness ≤ f.brightness ∧
  f.faces.length = 1 ∧
  (∀ b ∈ f.faces,
      f6_minFaceSize ≤ faceWidth b ∧ f6_minFaceSize ≤ faceHeight b ∧
      xOffset f b ≤ 1/5 ∧ yOffset f b ≤ 1/5) ∧
  (∀ a, f.eyeAngle = some a → |a| ≤ 15)

/- ===================== Capture file bookkeeping ===================== -/

/-- The cleanup at the start of each f6 capture cycle (lines 169-176):
sorted(glob(captured_face_*)) with everything but the last entry removed,
i.e. only the most recent previously captured file survives.  File lists
are kept in chronological order, oldest first. -/
def keepNewest (files : List String) : List String :=
  match files.getLast? with
  | none => []
  | some f => [f]

/-- f6.py capture cycle effect on the set of captured_face files: prune to
the newest existing file, then add the newly written file exactly when the
loop returns a captured frame. -/
def f6_capture_files (files : List String) (newName : String) (frames : List Frame) :
    CaptureResult Frame × List String :=
  match f6_captureLoop 0 frames with
  | CaptureResult.captured f => (CaptureResult.captured f, keepNewest files ++ [newName])
  | r => (r, keepNewest files)

/-- final2.py capture cycle effect on the captured_face files: this variant
performs no deletion at all; a successful cycle just adds its new file. -/
def final2_capture_files (files : List String) (newName : String) (frames : List F2Frame) :
    CaptureResult F2Frame × List String :=
  match final2_captureLoop 0 frames with
  | CaptureResult.captured f => (CaptureResult.captured f, files ++ [newName])
  | r => (r, files)

/- ===================== Face matcher ===================== -/

/-- Strict distance threshold of f6.py compare_faces (line 316). -/
def f6_distThreshold : Rat := 2/5

/-- Confidence minimum of f6.py compare_faces (line 316): 80 percent. -/
def f6_minConfidence : Rat := 80

/-- Distance threshold of 2.py compare_faces (line 300). -/
def v2_distThreshold : Rat := 7/10

/-- Confidence minimum of 2.py compare_faces (line 300): 50 percent. -/
def v2_minConfidence : Rat := 50

/-- Tolerance of final2.py compare_faces (line 203): compare_faces with
tolerance 0.6 declares a match when face_distance is at most 0.6. -/
def final2_tolerance : Rat := 3/5

/-- The per-reference match condition of f6.py line 316:
face_distance < 0.4 and (1 - face_distance) * 100 > 80. -/
def f6_matchGate (d : Rat) : Bool :=
  decide (d < f6_distThreshold ∧ (1 - d) * 100 > f6_minConfidence)

/-- The per-reference match condition of 2.py line 300:
face_distance < 0.7 and (1 - face_distance) * 100 > 50. -/
def v2_matchGate (d : Rat) : Bool :=
  decide (d < v2_distThreshold ∧ (1 - d) * 100 > v2_minConfidence)

/-- The per-reference match condition of final2.py line 203. -/
def final2_matchGate (d : Rat) : Bool :=
  decide (d ≤ final2_tolerance)

/-- Input to a compare_faces call.  refs carries, for each loaded
reference profile in load order, its path and the face_distance between
its stored encoding and the captured encoding (the distance metric is an
oracle; everything compare_faces does with it is modelled exactly).
fileExists models the os.path.exists precheck; hasEncoding models
captured_encodings being non-empty. -/
structure CompareInput where
  fileExists : Bool
  hasEncoding : Bool
  refs : List (String × Rat)
deriving DecidableEq

/-- The reference loop of f6.py compare_faces, lines 308-327: first
qualifying reference returns True immediately; falling off the loop
returns False. -/
def f6_compareList : List (String × Rat) → Bool
  | [] => false
  | (_, d) :: rest => if f6_matchGate d then true else f6_compareList rest

/-- f6.py compare_faces, lines 288-331 (the exception path is not modelled;
no modelled operation raises). -/
def f6_compare_faces (inp : CompareInput) : Bool :=
  if inp.fileExists = false then false
  else if inp.hasEncoding = false then false
  else f6_compareList inp.refs

/-- The reference loop of 2.py compare_faces, lines 294-315. -/
def v2_compareList : List (String × Rat) → Bool
  | [] => false
  | (_, d) :: rest => if v2_matchGate d then true else v2_compareList rest

/-- 2.py compare_faces, lines 276-320. -/
def v2_compare_faces (inp : CompareInput) : Bool :=
  if inp.fileExists = false then false
  else if inp.hasEncoding = false then false
  else v2_compareList inp.refs

/-- The reference loop of final2.py compare_faces, lines 201-218. -/
def final2_compareList : List (String × Rat) → Bool
  | [] => false
  | (_, d) :: rest => if final2_matchGate d then true else final2_compareList rest

/-- final2.py compare_faces, lines 179-234. -/
def final2_compare_faces (inp : CompareInput) : Bool :=
  if inp.fileExists = false then false
  else if inp.hasEncoding = false then false
  else final2_compareList inp.refs

/-- The references actually examined by the f6 loop, in order: the loop
prints one comparison line per reference until (and including) the first
qualifying one, then returns. -/
def f6_examined : List (String × Rat) → List String
  | [] => []
  | (p, d) :: rest => if f6_matchGate d then [p] else p :: f6_examined rest

/-- The references actually examined by the final2 loop. -/
def final2_examined : List (String × Rat) → List String
  | [] => []
  | (p, d) :: rest => if final2_matchGate d then [p] else p :: final2_examined rest

/- ===================== Ignition state machine ===================== -/

/-- Externally visible side effects of one operation: whether a
step_motor_continuous thread was spawned (an Actuator start command) and
which capture files were removed from disk. -/
structure Effects where
  startCmd : Bool
  deleted : List String
deriving DecidableEq

def noEffects : Effects := { startCmd := false, deleted := [] }

/-- The f6.py process-wide mutable state relevant to the claims:
motor_running, vehicle_stopped, pending_authorization,
sms_sent_for_current_attempt, face_recognition_active, and the
chronologically ordered list of captured_face files on disk. -/
structure F6State where
  motor_running : Bool
  vehicle_stopped : Bool
  pending_authorization : Bool
  sms_sent : Bool
  face_recognition_active : Bool
  capture_files : List String
deriving DecidableEq

/-- Initial f6.py state after module load. -/
def f6_init : F6State :=
  { motor_running := false, vehicle_stopped := true, pending_authorization := false,
    sms_sent := false, face_recognition_active := false, capture_files := [] }

/-- The final2.py process-wide mutable state relevant to the claims (this
variant has no face_recognition_active flag). -/
structure F2State where
  motor_running : Bool
  vehicle_stopped : Bool
  pending_authorization : Bool
  sms_sent : Bool
  capture_files : List String
deriving DecidableEq

/-- latest_image = max(glob(captured_face_*), key=getctime, default=None):
the chronologically newest capture file. -/
def latestOf (files : List String) : Option String := files.getLast?

/-- The POST branch of f6.py authorize, lines 647-689.  Note that neither
branch consults pending_authorization: action yes always deletes the
newest capture file, spawns step_motor_continuous (which sets
motor_running), clears vehicle_stopped and resets both flags; action no
always deletes the newest capture file and resets both flags; any other
action value falls through to the redirect with no effect. -/
def f6_authorize (s : F6State) (action : String) : F6State × Effects :=
  if action = "yes" then
    ({ s with capture_files := s.capture_files.dropLast,
              motor_running := true, vehicle_stopped := false,
              pending_authorization := false, sms_sent := false },
     { startCmd := true, deleted := (latestOf s.capture_files).toList })
  else if action = "no" then
    ({ s with capture_files := s.capture_files.dropLast,
              pending_authorization := false, sms_sent := false },
     { startCmd := false, deleted := (latestOf s.capture_files).toList })
  else (s, noEffects)

/-- The POST branch of final2.py authorize, lines 527-548.  Again neither
branch consults pending_authorization, and neither branch deletes any
capture file. -/
def final2_authorize (s : F2State) (action : String) : F2State × Effects :=
  if action = "yes" then
    ({ s with motor_running := true, vehicle_stopped := false,
              pending_authorization := false, sms_sent := false },
     { startCmd := true, deleted := [] })
  else if action = "no" then
    ({ s with pending_authorization := false, sms_sent := false }, noEffects)
  else (s, noEffects)

/-- Events driving the f6.py state, one per externally triggered
operation.  A GET /start_vehicle sets face_recognition_active and spawns a
start_vehicle_with_face worker; the worker's completed run is delivered as
one attempt event carrying the name of the file its capture cycle would
write, whether the capture succeeded, and whether compare_faces matched
(the interleaving abstraction: each worker's effect is applied
atomically when it finishes). -/
inductive F6Event where
  | startWeb
  | attempt (newFile : String) (captureOk : Bool) (matched : Bool)
  | authPost (action : String)
  | stopWeb
deriving DecidableEq

/-- One transition of the f6.py system, from the source of
start_motor_web (line 605-610), start_vehicle_with_face (lines 371-423),
authorize (lines 637-689) and stop_motor (lines 355-369).  In the attempt
case: the worker returns at once unless face_recognition_active and
vehicle_stopped hold; the capture cycle first prunes old files; on a match
the new file is deleted again, a motor thread is spawned (motor_running
true), vehicle_stopped is cleared and sms_sent reset -- and
pending_authorization is left untouched (lines 405-417); on no match the
file is kept, the owner is notified and both sms_sent and
pending_authorization are set (lines 418-423). -/
def f6_step (s : F6State) : F6Event → F6State
  | F6Event.startWeb => { s with face_recognition_active := true }
  | F6Event.attempt newFile ok matched =>
    if s.face_recognition_active = false then s
    else if s.vehicle_stopped = false then s
    else
      let pruned := keepNewest s.capture_files
      if ok = false then { s with capture_files := pruned }
      else if matched then
        { s with capture_files := pruned,
                 motor_running := true, vehicle_stopped := false, sms_sent := false }
      else
        { s with capture_files := pruned ++ [newFile],
                 sms_sent := true, pending_authorization := true }
  | F6Event.authPost a => (f6_authorize s a).1
  | F6Event.stopWeb =>
    { s with motor_running := false, vehicle_stopped := true,
             face_recognition_active := false }

/-- Run the f6.py system over a list of events. -/
def f6_run (s : F6State) (evs : List F6Event) : F6State :=
  evs.foldl f6_step s

/- ===================== Motor loop ===================== -/

/-- Length of step_sequence (8 half-steps of the 4-phase motor). -/
def stepSequenceLength : Nat := 8

/-- The loop of f6.py step_motor_continuous, lines 347-352, as a function
of the successive values the shared motor_running flag has at each of the
loop's checks (the while condition and the per-step check at the top of
the inner for body).  The first argument is how many steps remain in the
current pass over step_sequence; 0 means the loop is at the while
condition.  The result is the number of set_step drive commands issued.
When the reading schedule is exhausted the flag is read as false and the
loop exits. -/
def f6_motor_loop : Nat → List Bool → Nat
  | _, [] => 0
  | 0, b :: rest => if b then f6_motor_loop stepSequenceLength rest else 0
  | Nat.succ k, b :: rest => if b then 1 + f6_motor_loop k rest else f6_motor_loop 0 rest

/- ===================== Concrete sample inputs ===================== -/

/-- A frame that is read correctly but is far too dark (brightness 10,
threshold 50): a pure quality rejection. -/
def darkF6Frame : Frame :=
  { readOk := true, brightness := 10, width := 640, height := 480,
    faces := [], eyeAngle := none, saveOk := true }

/-- A frame whose camera read fails. -/
def badReadF6Frame : Frame :=
  { readOk := false, brightness := 0, width := 640, height := 480,
    faces := [], eyeAngle := none, saveOk := false }

/-- A 200 x 200 face perfectly centered in a 640 x 480 frame. -/
def goodFaceBox : FaceBox := { top := 140, right := 420, bottom := 340, left := 220 }

/-- A frame the f6 gate accepts: bright, one large centered upright face,
save verified. -/
def goodF6Frame : Frame :=
  { readOk := true, brightness := 100, width := 640, height := 480,
    faces := [goodFaceBox], eyeAngle := some 0, saveOk := true }

/-- A tiny 20 x 20 face in the top-left corner. -/
def smallFaceBox : FaceBox := { top := 0, right := 20, bottom := 20, left := 0 }

/-- A frame with two small off-center faces and brightness 40: final2.py
accepts it (brightness at least 30 and some face present), although it
violates every f6 quality constraint except brightness. -/
def twoFaceF2Frame : F2Frame :=
  { readOk := true, brightness := 40, faces := [smallFaceBox, smallFaceBox] }

/-- A final2 frame whose camera read fails. -/
def badReadF2Frame : F2Frame := { readOk := false, brightness := 0, faces := [] }

/-- Event trace reaching a running-and-pending f6 state: a first attempt
fails to match (setting pending_authorization), the owner never resolves,
and a second attempt matches. -/
def c5_trace : List F6Event :=
  [F6Event.startWeb, F6Event.attempt "cap1" true false,
   F6Event.startWeb, F6Event.attempt "cap2" true true]

/-- An f6 state with a pending authorization and one capture file. -/
def pendingF6State : F6State :=
  { motor_running := false, vehicle_stopped := true, pending_authorization := true,
    sms_sent := true, face_recognition_active := true, capture_files := ["cap1"] }

/-- A final2 state with a pending authorization and one capture file. -/
def pendingF2State : F2State :=
  { motor_running := false, vehicle_stopped := true, pending_authorization := true,
    sms_sent := true, capture_files := ["cap1"] }

/- ===================== Helper lemmas ===================== -/

theorem captureLoopAux_failed_of_le {α : Type} (maxR : Nat) (outcome : α → FrameOutcome)
    (r : Nat) (fs : List α) (h : maxR ≤ r) :
    captureLoopAux maxR outcome r fs = CaptureResult.failed := by
  cases fs <;> · unfold captureLoopAux; rw [if_neg (Nat.not_lt.mpr h)]

theorem captureLoopAux_reject_skip {α : Type} (maxR : Nat) (outcome : α → FrameOutcome)
    (r : Nat) (f : α) (fs : List α) (hr : r < maxR) (hf : outcome f = FrameOutcome.reject) :
    captureLoopAux maxR outcome r (f :: fs) = captureLoopAux maxR outcome r fs := by
  conv_lhs => unfold captureLoopAux
  rw [if_pos hr, hf]

theorem captureLoopAux_captured {α : Type} (maxR : Nat) (outcome : α → FrameOutcome) :
    ∀ (fs : List α) (r : Nat) (f : α),
      captureLoopAux maxR outcome r fs = CaptureResult.captured f →
      outcome f = FrameOutcome.good := by
  intro fs
  induction fs with
  | nil =>
    intro r f h
    unfold captureLoopAux at h
    split at h <;> simp_all
  | cons f0 rest ih =>
    intro r f h
    unfold captureLoopAux at h
    split at h
    · split at h
    
      case _ ho => exact ih _ _ h
      case _ ho => exact ih _ _ h
      case _ ho => exact ih _ _ h
      case _ ho =>
        injection h with h2
        rw [← h2]
        exact ho
    · simp_all

theorem captureLoopAux_failed_count {α : Type} (maxR : Nat) (outcome : α → FrameOutcome) :
    ∀ (fs : List α) (r : Nat),
      captureLoopAux maxR outcome r fs = CaptureResult.failed →
      maxR - r ≤ fs.countP
        (fun f => outcome f == FrameOutcome.readFail || outcome f == FrameOutcome.saveFail) := by
  intro fs
  induction fs with
  | nil =>
    intro r h
    unfold captureLoopAux at h
    split at h
    · simp_all
    · rename_i hr
      rw [Nat.not_lt] at hr
      simp [Nat.sub_eq_zero_of_le hr]
  | cons f0 rest ih =>
    intro r h
    unfold captureLoopAux at h
    split at h
    · rename_i hr
      rw [List.countP_cons]
      split at h
      case _ ho =>
        have h2 := ih _ h
        simp [ho]
        omega
      case _ ho =>
        have h2 := ih _ h
        simp [ho]
        omega
      case _ ho =>
        have h2 := ih _ h
        simp [ho]
        omega
      case _ ho => simp_all
    · rename_i hr
      rw [Nat.not_lt] at hr
      simp [Nat.sub_eq_zero_of_le hr]

theorem f6_frameOutcome_good_quality (f : Frame)
    (h : f6_frameOutcome f = FrameOutcome.good) : f6_goodQuality f := by
  unfold f6_frameOutcome at h
  split at h
  · simp_all
  rename_i h1
  split at h
  · simp_all
  rename_i h2
  split at h
  · simp_all
  rename_i b rest hfaces
  split at h
  · simp_all
  rename_i h3
  split at h
  · simp_all
  rename_i h4
  split at h
  · simp_all
  rename_i h5
  split at h
  · simp_all
  rename_i h6
  split at h
  · rename_i h7
    push_neg at h3 h4
    have hrest : rest = [] := by
      rw [hfaces] at h5
      simp at h5
      exact h5
    refine ⟨le_of_not_lt h2, ?_, ?_, ?_⟩
    · rw [hfaces, hrest]
      rfl
    · intro b2 hb2
      rw [hfaces, hrest] at hb2
      simp at hb2
      subst hb2
      exact ⟨h3.1, h3.2, h4.1, h4.2⟩
    · intro a ha
      unfold f6_angleBad at h6
      rw [ha] at h6
      simp at h6
      exact h6
  · simp_all

theorem final2_frameOutcome_good (f : F2Frame)
    (h : final2_frameOutcome f = FrameOutcome.good) :
    final2_minBrightness ≤ f.brightness ∧ f.faces ≠ [] := by
  unfold final2_frameOutcome at h
  split at h
  · simp_all
  rename_i h1
  split at h
  · simp_all
  rename_i h2
  split at h
  · simp_all
  · rename_i b rest hfaces
    exact ⟨le_of_not_lt h2, by rw [hfaces]; simp⟩

theorem f6_compareList_true_iff (l : List (String × Rat)) :
    f6_compareList l = true ↔ ∃ pr ∈ l, f6_matchGate pr.2 = true := by
  induction l with
  | nil => simp [f6_compareList]
  | cons x rest ih =>
    obtain ⟨p, d⟩ := x
    by_cases hx : f6_matchGate d = true
    · simp [f6_compareList, hx]
    · rw [Bool.not_eq_true] at hx
      simp [f6_compareList, hx, ih]

theorem v2_compareList_true_iff (l : List (String × Rat)) :
    v2_compareList l = true ↔ ∃ pr ∈ l, v2_matchGate pr.2 = true := by
  induction l with
  | nil => simp [v2_compareList]
  | cons x rest ih =>
    obtain ⟨p, d⟩ := x
    by_cases hx : v2_matchGate d = true
    · simp [v2_compareList, hx]
    · rw [Bool.not_eq_true] at hx
      simp [v2_compareList, hx, ih]

theorem f6_motor_loop_all_false :
    ∀ (q : List Bool) (k : Nat), (∀ b ∈ q, b = false) → f6_motor_loop k q = 0 := by
  intro q
  induction q with
  | nil => intro k _; cases k <;> rfl
  | cons b rest ih =>
    intro k hb
    have hbf : b = false := hb b (List.mem_cons_self b rest)
    subst hbf
    have hrest : ∀ x ∈ rest, x = false := fun x hx => hb x (List.mem_cons_of_mem _ hx)
    cases k with
    | zero => simp [f6_motor_loop]
    | succ k =>
      simp only [f6_motor_loop, Bool.false_eq_true, if_false]
      exact ih 0 hrest

theorem f6_motor_loop_le_trues :
    ∀ (q : List Bool) (k : Nat), f6_motor_loop k q ≤ q.countP (fun b => b) := by
  intro q
  induction q with
  | nil => intro k; cases k <;> simp [f6_motor_loop]
  | cons b rest ih =>
    intro k
    rw [List.countP_cons]
    cases k with
    | zero =>
      cases b <;> simp [f6_motor_loop]
      exact le_trans (ih stepSequenceLength) (Nat.le_succ _)
    | succ k =>
      cases b <;> simp [f6_motor_loop]
      · exact le_trans (ih 0) (Nat.le_refl _)
      · have := ih k
        omega

theorem f6_motor_loop_append_false :
    ∀ (p : List Bool) (k : Nat) (q : List Bool), (∀ b ∈ q, b = false) →
      f6_motor_loop k (p ++ q) = f6_motor_loop k p := by
  intro p
  induction p with
  | nil =>
    intro k q hq
    rw [List.nil_append, f6_motor_loop_all_false q k hq]
    cases k <;> rfl
  | cons b rest ih =>
    intro k q hq
    cases k with
    | zero => cases b <;> simp [f6_motor_loop, ih _ _ hq]
    | succ k => cases b <;> simp [f6_motor_loop, ih _ _ hq]

/- ===================== Claim theorems ===================== -/

/-- Claim C1, counterexample: the capture loop of f6.py, fed ten
consecutive too-dark frames (one more than enough to exhaust a bound that
counted every rejection, since max_retries = 10), has consumed ten frames,
is still looping, and its retry counter still stands at 0 -- so rejected
attempts do not all count toward the bound and the loop is not limited to
the fixed maximum number of iterations. -/
theorem quality_rejections_do_not_count :
    f6_captureLoop 0 (List.replicate 10 darkF6Frame) = CaptureResult.stillLooping 0 := by
  decide

/-- Claim C1, amended: only frame-read failures and save-verification
failures increment the retry counter of capture_image_with_face; a quality
rejection repeats the loop without counting toward the bound (so the loop
is bounded only in the number of counted failures, not in total
iterations); once the counter reaches the maximum, the operation returns
the failure value None instead of looping further.  Stated for the f6.py
loop (conjuncts 1-3) and the final2.py loop (conjuncts 4-5). -/
theorem capture_retry_counts_only_read_and_save_failures :
    (∀ (r : Nat) (fs : List Frame), f6_maxRetries ≤ r →
        f6_captureLoop r fs = CaptureResult.failed) ∧
    (∀ (r : Nat) (f : Frame) (fs : List Frame), r < f6_maxRetries →
        f6_frameOutcome f = FrameOutcome.reject →
        f6_captureLoop r (f :: fs) = f6_captureLoop r fs) ∧
    (∀ (fs : List Frame) (r : Nat), f6_captureLoop r fs = CaptureResult.failed →
        f6_maxRetries - r ≤ fs.countP (fun f => f6_counted f)) ∧
    (∀ (r : Nat) (fs : List F2Frame), final2_maxRetries ≤ r →
        final2_captureLoop r fs = CaptureResult.failed) ∧
    (∀ (r : Nat) (f : F2Frame) (fs : List F2Frame), r < final2_maxRetries →
        final2_frameOutcome f = FrameOutcome.reject →
        final2_captureLoop r (f :: fs) = final2_captureLoop r fs) := by
  refine ⟨?_, ?_, ?_, ?_, ?_⟩
  · intro r fs h
    exact captureLoopAux_failed_of_le f6_maxRetries f6_frameOutcome r fs h
  · intro r f fs hr hf
    exact captureLoopAux_reject_skip f6_maxRetries f6_frameOutcome r f fs hr hf
  · intro fs r h
    exact captureLoopAux_failed_count f6_maxRetries f6_frameOutcome fs r h
  · intro r fs h
    exact captureLoopAux_failed_of_le final2_maxRetries final2_frameOutcome r fs h
  · intro r f fs hr hf
    exact captureLoopAux_reject_skip final2_maxRetries final2_frameOutcome r f fs hr hf

/-- Witness for the amended C1 theorem at concrete inputs: with the retry
counter at the bound the f6 loop reports failure at once; a dark frame in
front of a good one is skipped without affecting the result; a schedule of
ten read failures drives the f6 loop to failure with at least ten counted
frames; the final2 loop at its bound of five also fails at once and also
skips a dark frame. -/
theorem capture_retry_witness :
    f6_captureLoop 10 [darkF6Frame] = CaptureResult.failed ∧
    f6_captureLoop 0 (darkF6Frame :: [goodF6Frame]) = f6_captureLoop 0 [goodF6Frame] ∧
    10 - 0 ≤ (List.replicate 10 badReadF6Frame).countP (fun f => f6_counted f) ∧
    final2_captureLoop 5 [badReadF2Frame] = CaptureResult.failed ∧
    final2_captureLoop 0 ({ readOk := true, brightness := 1, faces := [] } :: []) =
      final2_captureLoop 0 [] :=
  ⟨capture_retry_counts_only_read_and_save_failures.1 10 [darkF6Frame] (by decide),
   capture_retry_counts_only_read_and_save_failures.2.1 0 darkF6Frame [goodF6Frame]
     (by decide) (by decide),
   capture_retry_counts_only_read_and_save_failures.2.2.1 (List.replicate 10 badReadF6Frame) 0
     (by decide),
   capture_retry_counts_only_read_and_save_failures.2.2.2.1 5 [badReadF2Frame] (by decide),
   capture_retry_counts_only_read_and_save_failures.2.2.2.2 0
     { readOk := true, brightness := 1, faces := [] } [] (by decide) (by decide)⟩

/-- Claim C3, counterexample: with the strict f6.py gate, whose distance
threshold is 0.4, a captured embedding at distance 0.3 from a reference
has confidence 70, which does not exceed that variant's 80 percent
minimum, so compare_faces returns False -- the claimed scenario
(distance 0.3, threshold 0.4, confidence 70 over a 50 percent minimum,
declared a match) does not describe the code. -/
theorem distance_point_three_is_not_a_match :
    f6_compare_faces
      { fileExists := true, hasEncoding := true, refs := [("profileA", 3/10)] } = false := by
  norm_num [f6_compare_faces, f6_compareList, f6_matchGate, f6_distThreshold, f6_minConfidence]

/-- Claim C3, amended: each compare_faces variant declares a match on a
profile exactly when both its own conditions hold -- distance below that
variant's threshold AND derived confidence (1 - distance) * 100 above that
variant's minimum; the f6.py thresholds are 0.4 and 80 percent, the 2.py
thresholds are 0.7 and 50 percent.  A capture at distance 0.3 therefore
yields matched = false under the f6 gate (confidence 70 is not above 80)
and matched = true under the 2.py gate. -/
theorem compare_faces_double_gate :
    (∀ inp : CompareInput, f6_compare_faces inp = true ↔
        inp.fileExists = true ∧ inp.hasEncoding = true ∧
        ∃ pr ∈ inp.refs, pr.2 < f6_distThreshold ∧ (1 - pr.2) * 100 > f6_minConfidence) ∧
    (∀ inp : CompareInput, v2_compare_faces inp = true ↔
        inp.fileExists = true ∧ inp.hasEncoding = true ∧
        ∃ pr ∈ inp.refs, pr.2 < v2_distThreshold ∧ (1 - pr.2) * 100 > v2_minConfidence) ∧
    f6_compare_faces
      { fileExists := true, hasEncoding := true,
        refs := [("profileA", 3/10), ("profileB", 9/10)] } = false ∧
    v2_compare_faces
      { fileExists := true, hasEncoding := true,
        refs := [("profileA", 3/10), ("profileB", 9/10)] } = true := by
  refine ⟨?_, ?_,
    by norm_num [f6_compare_faces, f6_compareList, f6_matchGate, f6_distThreshold, f6_minConfidence],
    by norm_num [v2_compare_faces, v2_compareList, v2_matchGate, v2_distThreshold, v2_minConfidence]⟩
  · intro inp
    obtain ⟨fe, he, refs⟩ := inp
    cases fe <;> cases he <;>
      simp [f6_compare_faces, f6_compareList_true_iff, f6_matchGate]
  · intro inp
    obtain ⟨fe, he, refs⟩ := inp
    cases fe <;> cases he <;>
      simp [v2_compare_faces, v2_compareList_true_iff, v2_matchGate]

/-- Claim C10, confirmed: for every rational distance d, the f6.py double
gate d < 0.4 and (1 - d) * 100 > 80 is equivalent to the single condition
d < 0.2; the distance-threshold conjunct is redundant. -/
theorem strict_gate_equivalent_to_single_threshold :
    ∀ d : Rat, ((d < f6_distThreshold ∧ (1 - d) * 100 > f6_minConfidence) ↔ d < 1/5) ∧
      (f6_matchGate d = true ↔ d < 1/5) := by
  intro d
  have h : (d < f6_distThreshold ∧ (1 - d) * 100 > f6_minConfidence) ↔ d < 1/5 := by
    unfold f6_distThreshold f6_minConfidence
    constructor
    · rintro ⟨h1, h2⟩
      linarith
    · intro h1
      constructor <;> linarith
  refine ⟨h, ?_⟩
  rw [f6_matchGate, decide_eq_true_iff]
  exact h

/-- Evaluation fact: the sample good frame passes every f6 quality check. -/
theorem goodF6Frame_outcome : f6_frameOutcome goodF6Frame = FrameOutcome.good := by
  norm_num [f6_frameOutcome, goodF6Frame, goodFaceBox, faceWidth, faceHeight,
    faceCenterX, faceCenterY, frameCenterX, frameCenterY, xOffset, yOffset,
    f6_minFaceSize, f6_minBrightness, f6_angleBad, Int.fdiv]

/-- Evaluation fact: the f6 loop returns the sample good frame at once. -/
theorem goodF6Frame_captured :
    f6_captureLoop 0 [goodF6Frame] = CaptureResult.captured goodF6Frame := by
  unfold f6_captureLoop captureLoopAux
  rw [goodF6Frame_outcome]
  rfl

/-- Claim C4, counterexample: the final2.py capture operation returns a
frame containing two detected faces, each far below the f6 minimum size --
so it is not true of every capture variant that a returned frame holds
exactly one face meeting the size, centering and angle constraints. -/
theorem final2_returns_frame_with_two_faces :
    final2_captureLoop 0 [twoFaceF2Frame] = CaptureResult.captured twoFaceF2Frame ∧
    twoFaceF2Frame.faces.length = 2 ∧
    faceWidth smallFaceBox < f6_minFaceSize := by
  refine ⟨?_, by decide, by decide⟩
  decide

/-- Claim C4, amended: every frame returned by the f6.py capture operation
has mean brightness at or above the 50 threshold, exactly one detected
face whose bounding box meets the 150 pixel minimum in both dimensions and
whose center is within the 20 percent tolerance of the frame center in
both axes, and whose eye-line tilt, whenever landmarks were measurable, is
within 15 degrees; the final2.py capture operation checks only brightness
(threshold 30) and face presence, so a frame it returns is only guaranteed
to be bright enough and to contain at least one face. -/
theorem returned_frames_pass_quality_gate :
    (∀ (r : Nat) (fs : List Frame) (f : Frame),
        f6_captureLoop r fs = CaptureResult.captured f → f6_goodQuality f) ∧
    (∀ (r : Nat) (fs : List F2Frame) (f : F2Frame),
        final2_captureLoop r fs = CaptureResult.captured f →
        final2_minBrightness ≤ f.brightness ∧ f.faces ≠ []) := by
  constructor
  · intro r fs f h
    exact f6_frameOutcome_good_quality f
      (captureLoopAux_captured f6_maxRetries f6_frameOutcome fs r f h)
  · intro r fs f h
    exact final2_frameOutcome_good f
      (captureLoopAux_captured final2_maxRetries final2_frameOutcome fs r f h)

/-- Witness for the amended C4 theorem: the sample good frame returned by
the f6 loop satisfies the full quality contract, and the two-face frame
returned by the final2 loop satisfies the final2 guarantees. -/
theorem returned_frames_quality_witness :
    f6_goodQuality goodF6Frame ∧
    (final2_minBrightness ≤ twoFaceF2Frame.brightness ∧ twoFaceF2Frame.faces ≠ []) :=
  ⟨returned_frames_pass_quality_gate.1 0 [goodF6Frame] goodF6Frame goodF6Frame_captured,
   returned_frames_pass_quality_gate.2 0 [twoFaceF2Frame] twoFaceF2Frame (by decide)⟩

/-- Claim C2, counterexample: from the initial state, where no
authorization is pending, a POST /authorize with action yes is not a
no-op: it spawns the motor thread (an Actuator start command) and flips
the running/stopped state. -/
theorem authorize_yes_not_noop_when_not_pending :
    f6_init.pending_authorization = false ∧
    (f6_authorize f6_init "yes").2.startCmd = true ∧
    (f6_authorize f6_init "yes").1.motor_running = true ∧
    (f6_authorize f6_init "yes").1.vehicle_stopped = false := by
  decide

/-- Claim C2, amended: the resolve operation never consults the pending
flag.  A call with an action other than yes or no is a true no-op in both
variants; a call with action no never issues a start command and leaves
the running/stopped state unchanged (though the f6 variant deletes the
newest capture file); a call with action yes always issues an Actuator
start command and marks the vehicle running, even when no authorization is
pending. -/
theorem authorize_ignores_pending_flag :
    (∀ (s : F6State) (a : String), a ≠ "yes" → a ≠ "no" →
        f6_authorize s a = (s, noEffects)) ∧
    (∀ s : F6State, (f6_authorize s "no").2.startCmd = false ∧
        (f6_authorize s "no").1.motor_running = s.motor_running ∧
        (f6_authorize s "no").1.vehicle_stopped = s.vehicle_stopped) ∧
    (∀ s : F6State, (f6_authorize s "yes").2.startCmd = true ∧
        (f6_authorize s "yes").1.motor_running = true) ∧
    (∀ (s : F2State) (a : String), a ≠ "yes" → a ≠ "no" →
        final2_authorize s a = (s, noEffects)) ∧
    (∀ s : F2State, (final2_authorize s "no").2 = noEffects ∧
        (final2_authorize s "no").1.motor_running = s.motor_running ∧
        (final2_authorize s "no").1.vehicle_stopped = s.vehicle_stopped ∧
        (final2_authorize s "no").1.capture_files = s.capture_files) ∧
    (∀ s : F2State, (final2_authorize s "yes").2.startCmd = true ∧
        (final2_authorize s "yes").1.motor_running = true) := by
  refine ⟨?_, ?_, ?_, ?_, ?_, ?_⟩
  · intro s a h1 h2
    simp [f6_authorize, h1, h2]
  · intro s
    simp [f6_authorize]
  · intro s
    simp [f6_authorize]
  · intro s a h1 h2
    simp [final2_authorize, h1, h2]
  · intro s
    simp [final2_authorize]
  · intro s
    simp [final2_authorize]

/-- Witness for the amended C2 theorem: a POST with the unrecognized
action value maybe leaves the pending state untouched, a deny never
starts the motor there, and an approve always does. -/
theorem authorize_ignores_pending_witness :
    f6_authorize pendingF6State "maybe" = (pendingF6State, noEffects) ∧
    (f6_authorize pendingF6State "no").2.startCmd = false ∧
    final2_authorize pendingF2State "maybe" = (pendingF2State, noEffects) ∧
    (final2_authorize pendingF2State "yes").2.startCmd = true :=
  ⟨authorize_ignores_pending_flag.1 pendingF6State "maybe" (by decide) (by decide),
   (authorize_ignores_pending_flag.2.1 pendingF6State).1,
   authorize_ignores_pending_flag.2.2.2.1 pendingF2State "maybe" (by decide) (by decide),
   (authorize_ignores_pending_flag.2.2.2.2.2 pendingF2State).1⟩

/-- Claim C5, counterexample: a reachable violation of the invariant.  A
first attempt fails to match, setting pending_authorization; the owner
never resolves; a second start attempt matches; the resulting state has
the motor commanded to run while pending_authorization is still set,
because the match branch of start_vehicle_with_face never clears it. -/
theorem running_while_pending_reachable :
    (f6_run f6_init c5_trace).motor_running = true ∧
    (f6_run f6_init c5_trace).pending_authorization = true := by
  decide

/-- Claim C5, amended: the Matching-to-Running transition of f6.py does
not clear the pending-authorization bookkeeping.  On a successful match
(with face recognition active and the vehicle stopped) the worker marks
the vehicle running and resets only the SMS-sent flag, leaving
pending_authorization exactly as it was; consequently a state that is
simultaneously running and pending authorization is reachable. -/
theorem match_transition_leaves_pending_unchanged :
    ∀ (s : F6State) (nf : String),
      s.face_recognition_active = true → s.vehicle_stopped = true →
      (f6_step s (F6Event.attempt nf true true)).motor_running = true ∧
      (f6_step s (F6Event.attempt nf true true)).vehicle_stopped = false ∧
      (f6_step s (F6Event.attempt nf true true)).sms_sent = false ∧
      (f6_step s (F6Event.attempt nf true true)).pending_authorization =
        s.pending_authorization := by
  intro s nf h1 h2
  simp [f6_step, h1, h2]

/-- Witness for the amended C5 theorem: applied to the pending sample
state, a successful match starts the motor yet leaves the pending flag
exactly as it was there, namely set. -/
theorem match_transition_pending_witness :
    (f6_step pendingF6State (F6Event.attempt "cap2" true true)).motor_running = true ∧
    (f6_step pendingF6State (F6Event.attempt "cap2" true true)).vehicle_stopped = false ∧
    (f6_step pendingF6State (F6Event.attempt "cap2" true true)).sms_sent = false ∧
    (f6_step pendingF6State (F6Event.attempt "cap2" true true)).pending_authorization =
      pendingF6State.pending_authorization :=
  match_transition_leaves_pending_unchanged pendingF6State "cap2" (by decide) (by decide)

/-- Claim C6, counterexample: in final2.py, a deny resolution made while
an authorization is pending clears the pending flag but does NOT delete
the pending capture file -- the file list is untouched. -/
theorem final2_deny_retains_capture_file :
    pendingF2State.pending_authorization = true ∧
    (final2_authorize pendingF2State "no").1.pending_authorization = false ∧
    (final2_authorize pendingF2State "no").1.capture_files = ["cap1"] := by
  decide

/-- Claim C6, amended: a deny resolution while pending clears the pending
flag, leaves the running/stopped state unchanged (so a stopped vehicle
stays stopped) and issues no Actuator start command in both variants; the
pending capture file is deleted only by the f6.py variant -- final2.py
leaves the capture file on disk. -/
theorem deny_when_pending_goes_idle :
    (∀ s : F6State, s.pending_authorization = true →
        (f6_authorize s "no").1.pending_authorization = false ∧
        (f6_authorize s "no").1.capture_files = s.capture_files.dropLast ∧
        (f6_authorize s "no").2.startCmd = false ∧
        (f6_authorize s "no").1.motor_running = s.motor_running ∧
        (f6_authorize s "no").1.vehicle_stopped = s.vehicle_stopped) ∧
    (∀ s : F2State, s.pending_authorization = true →
        (final2_authorize s "no").1.pending_authorization = false ∧
        (final2_authorize s "no").2.startCmd = false ∧
        (final2_authorize s "no").1.motor_running = s.motor_running ∧
        (final2_authorize s "no").1.vehicle_stopped = s.vehicle_stopped ∧
        (final2_authorize s "no").1.capture_files = s.capture_files) := by
  constructor
  · intro s _
    simp [f6_authorize]
  · intro s _
    simp [final2_authorize, noEffects]

/-- Witness for the amended C6 theorem at the two pending sample states. -/
theorem deny_when_pending_witness :
    ((f6_authorize pendingF6State "no").1.pending_authorization = false ∧
      (f6_authorize pendingF6State "no").1.capture_files =
        pendingF6State.capture_files.dropLast ∧
      (f6_authorize pendingF6State "no").2.startCmd = false ∧
      (f6_authorize pendingF6State "no").1.motor_running = pendingF6State.motor_running ∧
      (f6_authorize pendingF6State "no").1.vehicle_stopped = pendingF6State.vehicle_stopped) ∧
    ((final2_authorize pendingF2State "no").1.pending_authorization = false ∧
      (final2_authorize pendingF2State "no").2.startCmd = false ∧
      (final2_authorize pendingF2State "no").1.motor_running = pendingF2State.motor_running ∧
      (final2_authorize pendingF2State "no").1.vehicle_stopped =
        pendingF2State.vehicle_stopped ∧
      (final2_authorize pendingF2State "no").1.capture_files =
        pendingF2State.capture_files) :=
  ⟨deny_when_pending_goes_idle.1 pendingF6State (by decide),
   deny_when_pending_goes_idle.2 pendingF2State (by decide)⟩

theorem f6_compareList_none (l : List (String × Rat))
    (h : ∀ x ∈ l, f6_matchGate x.2 = false) : f6_compareList l = false := by
  induction l with
  | nil => rfl
  | cons x rest ih =>
    obtain ⟨p, d⟩ := x
    have hx : f6_matchGate d = false := h (p, d) (List.mem_cons_self _ _)
    simp [f6_compareList, hx]
    exact ih (fun y hy => h y (List.mem_cons_of_mem _ hy))

theorem f6_compareList_first :
    ∀ (pre : List (String × Rat)) (p : String) (d : Rat) (post : List (String × Rat)),
      (∀ x ∈ pre, f6_matchGate x.2 = false) → f6_matchGate d = true →
      f6_compareList (pre ++ (p, d) :: post) = true ∧
      f6_examined (pre ++ (p, d) :: post) = pre.map Prod.fst ++ [p] := by
  intro pre
  induction pre with
  | nil =>
    intro p d post _ hd
    simp [f6_compareList, f6_examined, hd]
  | cons x rest ih =>
    intro p d post hpre hd
    obtain ⟨q, e⟩ := x
    have hx : f6_matchGate e = false := hpre (q, e) (List.mem_cons_self _ _)
    have ih2 := ih p d post (fun y hy => hpre y (List.mem_cons_of_mem _ hy)) hd
    simp [f6_compareList, f6_examined, hx, ih2.1, ih2.2]

theorem final2_compareList_none (l : List (String × Rat))
    (h : ∀ x ∈ l, final2_matchGate x.2 = false) : final2_compareList l = false := by
  induction l with
  | nil => rfl
  | cons x rest ih =>
    obtain ⟨p, d⟩ := x
    have hx : final2_matchGate d = false := h (p, d) (List.mem_cons_self _ _)
    simp [final2_compareList, hx]
    exact ih (fun y hy => h y (List.mem_cons_of_mem _ hy))

theorem final2_compareList_first :
    ∀ (pre : List (String × Rat)) (p : String) (d : Rat) (post : List (String × Rat)),
      (∀ x ∈ pre, final2_matchGate x.2 = false) → final2_matchGate d = true →
      final2_compareList (pre ++ (p, d) :: post) = true ∧
      final2_examined (pre ++ (p, d) :: post) = pre.map Prod.fst ++ [p] := by
  intro pre
  induction pre with
  | nil =>
    intro p d post _ hd
    simp [final2_compareList, final2_examined, hd]
  | cons x rest ih =>
    intro p d post hpre hd
    obtain ⟨q, e⟩ := x
    have hx : final2_matchGate e = false := hpre (q, e) (List.mem_cons_self _ _)
    have ih2 := ih p d post (fun y hy => hpre y (List.mem_cons_of_mem _ hy)) hd
    simp [final2_compareList, final2_examined, hx, ih2.1, ih2.2]

/-- Claim C7, confirmed: the matcher walks the references in their loaded
order; the first reference satisfying the match condition makes it return
matched = true immediately, the examined prefix being exactly the
non-qualifying references before it plus that first qualifying one --
references after it are never examined; and when no reference qualifies it
returns matched = false.  Stated for the f6.py loop (conjuncts 1-2) and
the final2.py loop (conjuncts 3-4). -/
theorem first_qualifying_match_wins :
    (∀ (pre : List (String × Rat)) (p : String) (d : Rat) (post : List (String × Rat)),
        (∀ x ∈ pre, f6_matchGate x.2 = false) → f6_matchGate d = true →
        f6_compare_faces
          { fileExists := true, hasEncoding := true, refs := pre ++ (p, d) :: post } = true ∧
        f6_examined (pre ++ (p, d) :: post) = pre.map Prod.fst ++ [p]) ∧
    (∀ inp : CompareInput, (∀ x ∈ inp.refs, f6_matchGate x.2 = false) →
        f6_compare_faces inp = false) ∧
    (∀ (pre : List (String × Rat)) (p : String) (d : Rat) (post : List (String × Rat)),
        (∀ x ∈ pre, final2_matchGate x.2 = false) → final2_matchGate d = true →
        final2_compare_faces
          { fileExists := true, hasEncoding := true, refs := pre ++ (p, d) :: post } = true ∧
        final2_examined (pre ++ (p, d) :: post) = pre.map Prod.fst ++ [p]) ∧
    (∀ inp : CompareInput, (∀ x ∈ inp.refs, final2_matchGate x.2 = false) →
        final2_compare_faces inp = false) := by
  refine ⟨?_, ?_, ?_, ?_⟩
  · intro pre p d post hpre hd
    have h := f6_compareList_first pre p d post hpre hd
    exact ⟨by simpa [f6_compare_faces] using h.1, h.2⟩
  · intro inp hrefs
    obtain ⟨fe, he, refs⟩ := inp
    cases fe <;> cases he <;> simp [f6_compare_faces]
    exact f6_compareList_none refs hrefs
  · intro pre p d post hpre hd
    have h := final2_compareList_first pre p d post hpre hd
    exact ⟨by simpa [final2_compare_faces] using h.1, h.2⟩
  · intro inp hrefs
    obtain ⟨fe, he, refs⟩ := inp
    cases fe <;> cases he <;> simp [final2_compare_faces]
    exact final2_compareList_none refs hrefs

/-- Witness for the C7 theorem at concrete reference lists: with a
non-qualifying first reference and a qualifying second one, both loops
return true having examined exactly the first two names, leaving the third
unexamined; and a list whose only reference does not qualify yields
false. -/
theorem first_qualifying_witness :
    (f6_compare_faces
        { fileExists := true, hasEncoding := true,
          refs := [("profileB", 9/10)] ++ ("profileA", 1/10) :: [("profileC", 1/2)] } = true ∧
      f6_examined ([("profileB", 9/10)] ++ ("profileA", 1/10) :: [("profileC", 1/2)]) =
        [("profileB", 9/10)].map Prod.fst ++ ["profileA"]) ∧
    f6_compare_faces
        { fileExists := true, hasEncoding := true, refs := [("profileB", 9/10)] } = false ∧
    (final2_compare_faces
        { fileExists := true, hasEncoding := true,
          refs := [("profileB", 9/10)] ++ ("profileA", 1/10) :: [("profileC", 1/2)] } = true ∧
      final2_examined ([("profileB", 9/10)] ++ ("profileA", 1/10) :: [("profileC", 1/2)]) =
        [("profileB", 9/10)].map Prod.fst ++ ["profileA"]) ∧
    final2_compare_faces
        { fileExists := true, hasEncoding := true, refs := [("profileB", 9/10)] } = false :=
  ⟨first_qualifying_match_wins.1 [("profileB", 9/10)] "profileA" (1/10) [("profileC", 1/2)]
      (by
        intro x hx
        rw [List.mem_singleton] at hx
        subst hx
        norm_num [f6_matchGate, f6_distThreshold, f6_minConfidence])
      (by norm_num [f6_matchGate, f6_distThreshold, f6_minConfidence]),
   first_qualifying_match_wins.2.1
      { fileExists := true, hasEncoding := true, refs := [("profileB", 9/10)] }
      (by
        intro x hx
        rw [List.mem_singleton] at hx
        subst hx
        norm_num [f6_matchGate, f6_distThreshold, f6_minConfidence]),
   first_qualifying_match_wins.2.2.1 [("profileB", 9/10)] "profileA" (1/10) [("profileC", 1/2)]
      (by
        intro x hx
        rw [List.mem_singleton] at hx
        subst hx
        norm_num [final2_matchGate, final2_tolerance])
      (by norm_num [final2_matchGate, final2_tolerance]),
   first_qualifying_match_wins.2.2.2
      { fileExists := true, hasEncoding := true, refs := [("profileB", 9/10)] }
      (by
        intro x hx
        rw [List.mem_singleton] at hx
        subst hx
        norm_num [final2_matchGate, final2_tolerance])⟩

theorem keepNewest_length_le_one (files : List String) : (keepNewest files).length ≤ 1 := by
  unfold keepNewest
  cases h : files.getLast? <;> simp

/-- Claim C8, counterexample: an f6 capture cycle that starts with one
unresolved capture file on disk and succeeds leaves TWO capture files
behind -- the preserved most recent old one and the newly written one --
so more than one captured-frame file can remain after a cycle. -/
theorem two_capture_files_after_cycle :
    (f6_capture_files ["old"] "new" [goodF6Frame]).2 = ["old", "new"] := by
  unfold f6_capture_files
  rw [goodF6Frame_captured]
  rfl

/-- Claim C8, amended: the f6.py capture cycle deletes all but the newest
previously captured file before capturing, so after any cycle at most two
capture files remain (the preserved previous one plus the new capture),
and at most one when the cycle fails; the final2.py capture cycle deletes
nothing -- it either leaves the file list unchanged or appends the newly
captured file to it. -/
theorem capture_cycle_file_retention :
    (∀ (files : List String) (n : String) (frames : List Frame),
        (f6_capture_files files n frames).2.length ≤ 2) ∧
    (∀ (files : List String) (n : String) (frames : List Frame),
        (f6_capture_files files n frames).1 = CaptureResult.failed →
        (f6_capture_files files n frames).2.length ≤ 1) ∧
    (∀ (files : List String) (n : String) (frames : List F2Frame),
        (final2_capture_files files n frames).2 = files ∨
        (final2_capture_files files n frames).2 = files ++ [n]) := by
  refine ⟨?_, ?_, ?_⟩
  · intro files n frames
    have hk := keepNewest_length_le_one files
    unfold f6_capture_files
    cases hr : f6_captureLoop 0 frames <;> simp [List.length_append] <;> omega
  · intro files n frames h
    have hk := keepNewest_length_le_one files
    unfold f6_capture_files at h ⊢
    cases hr : f6_captureLoop 0 frames <;> simp_all
  · intro files n frames
    unfold final2_capture_files
    cases hr : final2_captureLoop 0 frames <;> simp

/-- Witness for the amended C8 theorem: the f6 bound of two applied to the
successful sample cycle, the failure bound applied to a cycle of ten read
failures, and the final2 no-deletion disjunction at the two-face frame. -/
theorem capture_file_retention_witness :
    (f6_capture_files ["old"] "new" [goodF6Frame]).2.length ≤ 2 ∧
    (f6_capture_files ["old"] "new" (List.replicate 10 badReadF6Frame)).2.length ≤ 1 ∧
    ((final2_capture_files ["old"] "new" [twoFaceF2Frame]).2 = ["old"] ∨
      (final2_capture_files ["old"] "new" [twoFaceF2Frame]).2 = ["old"] ++ ["new"]) :=
  ⟨capture_cycle_file_retention.1 ["old"] "new" [goodF6Frame],
   capture_cycle_file_retention.2.1 ["old"] "new" (List.replicate 10 badReadF6Frame)
     (by decide),
   capture_cycle_file_retention.2.2 ["old"] "new" [twoFaceF2Frame]⟩

/-- Claim C9, confirmed: in the motor loop of step_motor_continuous the
running flag is checked at every step boundary (each issued set_step
command consumes one true reading of the flag, so the number of issued
steps never exceeds the number of true readings), and once the flag reads
false at every later boundary the loop issues not a single further step --
the remaining latency after a stop command is therefore at most the one
step already in flight, that is, one motor-step interval. -/
theorem motor_stop_bounded_by_one_step :
    (∀ (q : List Bool) (k : Nat), f6_motor_loop k q ≤ q.countP (fun b => b)) ∧
    (∀ (k : Nat) (p q : List Bool), (∀ b ∈ q, b = false) →
        f6_motor_loop k (p ++ q) = f6_motor_loop k p) :=
  ⟨f6_motor_loop_le_trues, fun k p q hq => f6_motor_loop_append_false p k q hq⟩

/-- Witness for the C9 theorem: three true readings followed by a cleared
flag issue exactly as many steps as the three true readings alone, and the
step count of that schedule is bounded by its number of true readings. -/
theorem motor_stop_witness :
    f6_motor_loop 0 ([true, true, true] ++ [false, false]) =
      f6_motor_loop 0 [true, true, true] ∧
    f6_motor_loop 0 [true, true, true, false, false] ≤
      [true, true, true, false, false].countP (fun b => b) :=
  ⟨motor_stop_bounded_by_one_step.2 0 [true, true, true] [false, false] (by decide),
   motor_stop_bounded_by_one_step.1 [true, true, true, false, false] 0⟩
